import Mathlib

/-!
Shallow embedding of the tenant-aware NGSI-LD ↔ Odoo synchronization engine
(`backend/app/services/ngsi_sync.py`, `backend/app/services/database.py`,
`backend/app/routers/tenant.py`, `backend/app/routers/sync.py`,
`backend/app/routers/webhook.py`).

Python dict values are modelled by the inductive `Value`; the Postgres tables
(`odoo_tenant_info`, `odoo_entity_mappings`, `odoo_sync_status`) become
association lists; the Odoo XML-RPC remote becomes an explicit per-database
state with a fresh-id counter and a rejection oracle standing for remote
failures; `datetime.utcnow()` is threaded as an explicit `now : String`.
Fallible Python code (raising exceptions) returns `Except String`.
-/

namespace NkzOdoo

/-- A Python/JSON value as it appears in NGSI-LD entity payloads and Odoo
field-value dicts: `None`, strings, integers, booleans, and string-keyed
dicts (one constructor per shape the code distinguishes). -/
inductive Value where
  | vnone : Value
  | vstr : String → Value
  | vnum : Int → Value
  | vbool : Bool → Value
  | vdict : List (String × Value) → Value
deriving Repr

/-- Lookup in a dict modelled as an association list (`d.get(k)`,
returning `none` when the key is absent). -/
def dictGet (d : List (String × Value)) (k : String) : Option Value :=
  (d.find? (fun p => p.fst == k)).map (fun p => p.snd)

/-- `d[k] = v` with Python dict semantics: overwrite in place if the key is
present, append otherwise. -/
def dictSet (d : List (String × Value)) (k : String) (v : Value) :
    List (String × Value) :=
  if d.any (fun p => p.fst == k) then
    d.map (fun p => if p.fst == k then (k, v) else p)
  else
    d ++ [(k, v)]

/-- `base.update(upd)` for Python dicts. -/
def dictUpdate (base : List (String × Value)) :
    List (String × Value) → List (String × Value)
  | [] => base
  | (k, v) :: rest => dictUpdate (dictSet base k v) rest

/-- Python truthiness on `Value` (what `not x` / `x or y` test). -/
def Value.isFalsy : Value → Bool
  | .vnone => true
  | .vstr s => s == ""
  | .vnum n => n == 0
  | .vbool b => b == false
  | .vdict fields => fields.isEmpty

mutual

/-- Python `repr` of a value (used through `str` on containers). Formatting
of nested dicts follows Python closely enough for the sync code, which only
ever stores the resulting string. -/
def pyRepr : Value → String
  | .vnone => "None"
  | .vstr s => "\x27" ++ s ++ "\x27"
  | .vnum n => toString n
  | .vbool b => if b then "True" else "False"
  | .vdict fs => "\x7b" ++ String.intercalate ", " (pyReprFields fs) ++ "\x7d"

/-- `repr` of the `key: value` items of a dict, in insertion order. -/
def pyReprFields : List (String × Value) → List String
  | [] => []
  | (k, v) :: rest => ("\x27" ++ k ++ "\x27: " ++ pyRepr v) :: pyReprFields rest

end

/-- Python `str(...)` applied to a value (`str` of a `str` has no quotes). -/
def pyStr : Value → String
  | .vstr s => s
  | v => pyRepr v

/-- An NGSI-LD entity snapshot as the sync service consumes it:
`entity.get("id")`, `entity.get("type")` and the remaining property keys. -/
structure Entity where
  id : String
  type : String
  props : List (String × Value)
deriving Repr

/-- `entity.get(property_name)` over the property dict. -/
def lookupProp (props : List (String × Value)) (name : String) : Option Value :=
  dictGet props name

/-! ## `database.py` — the three Postgres tables -/

/-- One row of `odoo_entity_mappings` (the Mapping Store). The table has a
`UNIQUE(tenant_id, ngsi_id)` constraint; `created_at`/serial `id` carry no
logic and are omitted. -/
structure EntityMapping where
  tenant_id : String
  ngsi_id : String
  ngsi_type : String
  odoo_id : Nat
  odoo_model : String
  odoo_name : Value
  last_sync : String
deriving Repr

/-- `tenant_id = $1 AND ngsi_id = $2`, the key of the unique constraint. -/
def keyMatches (tenant_id ngsi_id : String) (m : EntityMapping) : Bool :=
  m.tenant_id == tenant_id && m.ngsi_id == ngsi_id

/-- `get_entity_mappings(tenant_id, ngsi_type)`: rows of the mapping table
for one tenant, optionally filtered by NGSI type. Python tests the filter
with `if ngsi_type:`, so `some ""` (falsy) behaves like `none`. -/
def get_entity_mappings (tenant_id : String) (ngsi_type : Option String)
    (store : List EntityMapping) : List EntityMapping :=
  match ngsi_type with
  | some t =>
    if t == "" then store.filter (fun m => m.tenant_id == tenant_id)
    else store.filter (fun m => m.tenant_id == tenant_id && m.ngsi_type == t)
  | none => store.filter (fun m => m.tenant_id == tenant_id)

/-- `get_entity_mapping_by_ngsi_id(tenant_id, ngsi_id)`: the single row
selected by `tenant_id = $1 AND ngsi_id = $2`. -/
def get_entity_mapping_by_ngsi_id (tenant_id ngsi_id : String)
    (store : List EntityMapping) : Option EntityMapping :=
  store.find? (keyMatches tenant_id ngsi_id)

/-- The `mapping` dict passed to `create_entity_mapping`. -/
structure MappingInput where
  ngsi_id : String
  ngsi_type : String
  odoo_id : Nat
  odoo_model : String
  odoo_name : Value
  last_sync : String
deriving Repr

/-- `ON CONFLICT (tenant_id, ngsi_id) DO UPDATE SET odoo_id, odoo_model,
odoo_name, last_sync` — the conflicting row keeps its original `ngsi_type`
(and `created_at`), which are not in the SET list. -/
def conflictUpdate (old : EntityMapping) (row : MappingInput) : EntityMapping :=
  { old with
    odoo_id := row.odoo_id
    odoo_model := row.odoo_model
    odoo_name := row.odoo_name
    last_sync := row.last_sync }

/-- The freshly inserted row for a non-conflicting upsert. -/
def newRowOf (tenant_id : String) (mapping : MappingInput) : EntityMapping :=
  { tenant_id := tenant_id
    ngsi_id := mapping.ngsi_id
    ngsi_type := mapping.ngsi_type
    odoo_id := mapping.odoo_id
    odoo_model := mapping.odoo_model
    odoo_name := mapping.odoo_name
    last_sync := mapping.last_sync }

/-- `create_entity_mapping(tenant_id, mapping)`: insert-or-update keyed on
`(tenant_id, ngsi_id)` as executed by the `INSERT ... ON CONFLICT` above —
the unique constraint guarantees at most one conflicting row, which is
updated in place; absent a conflict the row is appended. -/
def create_entity_mapping (tenant_id : String) (mapping : MappingInput) :
    List EntityMapping → List EntityMapping
  | [] => [newRowOf tenant_id mapping]
  | m :: rest =>
    if keyMatches tenant_id mapping.ngsi_id m then conflictUpdate m mapping :: rest
    else m :: create_entity_mapping tenant_id mapping rest

/-- Whether the mapping store holds a row for the `(tenant, external id)`
key (what the `UNIQUE(tenant_id, ngsi_id)` constraint ranges over). -/
def hasKey (tenant_id ngsi_id : String) (store : List EntityMapping) : Bool :=
  store.any (keyMatches tenant_id ngsi_id)

/-- Number of rows the store holds for the `(tenant, external id)` key. -/
def countKey (tenant_id ngsi_id : String) (store : List EntityMapping) : Nat :=
  store.countP (fun m => keyMatches tenant_id ngsi_id m)

/-- One row of `odoo_tenant_info`. Nullable columns are `Option`; the
`error TEXT` column exists in the schema but — relevantly for the
provisioning claims — is never in the column list of any write. -/
structure TenantInfo where
  name : Option String
  database : Option String
  status : Option String
  energy_modules_enabled : Bool
  installed_modules : List String
  admin_email : Option String
  created_at : Option String
  error : Option String
deriving Repr

/-- `get_tenant_odoo_info(tenant_id)`: `SELECT * ... WHERE tenant_id = $1`. -/
def get_tenant_odoo_info (tenant_id : String)
    (table : List (String × TenantInfo)) : Option TenantInfo :=
  (table.find? (fun p => p.fst == tenant_id)).map (fun p => p.snd)

/-- The `info` dict handed to `save_tenant_odoo_info`: exactly the keys the
function reads with `info.get(...)`. Callers may also put `"error"`,
`"started_at"` or `"failed_at"` into the dict; only `error` is kept here to
record that the save function never reads it. -/
structure SaveInfo where
  name : Option String := none
  database : Option String := none
  status : Option String := none
  energy_modules_enabled : Bool := false
  installed_modules : List String := []
  admin_email : Option String := none
  created_at : Option String := none
  error : Option String := none
deriving Repr

/-- The `ON CONFLICT (tenant_id) DO UPDATE` arm of `save_tenant_odoo_info`:
`COALESCE(EXCLUDED.col, old.col)` for the nullable columns; the Python side
defaults `energy_modules_enabled` to `False` and `installed_modules` to
`[]`, so those EXCLUDED values are never NULL and always win; `created_at`
and `error` are not in the SET list and keep their old values. -/
def tenantConflictUpdate (old : TenantInfo) (i : SaveInfo) : TenantInfo :=
  { name := i.name.orElse (fun _ => old.name)
    database := i.database.orElse (fun _ => old.database)
    status := i.status.orElse (fun _ => old.status)
    energy_modules_enabled := i.energy_modules_enabled
    installed_modules := i.installed_modules
    admin_email := i.admin_email.orElse (fun _ => old.admin_email)
    created_at := old.created_at
    error := old.error }

/-- The fresh-insert arm of `save_tenant_odoo_info`: the `error` column is
not in the INSERT column list, so a new row gets `error = NULL`. -/
def tenantInsert (i : SaveInfo) : TenantInfo :=
  { name := i.name
    database := i.database
    status := i.status
    energy_modules_enabled := i.energy_modules_enabled
    installed_modules := i.installed_modules
    admin_email := i.admin_email
    created_at := i.created_at
    error := none }

/-- `save_tenant_odoo_info(tenant_id, info)`: `info = None` deletes the row,
otherwise upsert with the COALESCE semantics above. -/
def save_tenant_odoo_info (tenant_id : String) (info : Option SaveInfo)
    (table : List (String × TenantInfo)) : List (String × TenantInfo) :=
  match info with
  | none => table.filter (fun p => p.fst != tenant_id)
  | some i =>
    if table.any (fun p => p.fst == tenant_id) then
      table.map (fun p =>
        if p.fst == tenant_id then (p.fst, tenantConflictUpdate p.snd i) else p)
    else
      table ++ [(tenant_id, tenantInsert i)]

/-- One row of `odoo_sync_status` (`status` is nullable in the schema). -/
structure StoredSyncStatus where
  status : Option String
  last_sync : Option String
  entities_synced : Nat
  errors : List String
deriving Repr

/-- `get_sync_status(tenant_id)` in `database.py`. -/
def db_get_sync_status (tenant_id : String)
    (table : List (String × StoredSyncStatus)) : Option StoredSyncStatus :=
  (table.find? (fun p => p.fst == tenant_id)).map (fun p => p.snd)

/-! ## `odoo_client.py` — the per-database Odoo remote

Each tenant database holds records with serial integer ids. Remote-side
failure of a `create`/`write` RPC (network error, schema rejecting a field)
is abstracted by a `rejects` oracle over (model, values): when it fires, the
call raises and the remote state is unchanged. -/

/-- An Odoo record: model (table), id, current field values. -/
structure OdooRecord where
  model : String
  id : Nat
  values : List (String × Value)
deriving Repr

/-- The state of one Odoo database. -/
structure OdooDb where
  nextId : Nat := 1
  records : List OdooRecord := []
deriving Repr

/-- A remote-failure oracle: `rejects model values = true` means the RPC for
that model/values raises on the remote. -/
def RejectOracle := String → List (String × Value) → Bool

/-- `OdooClient.create_record(db, model, values)`: the remote assigns the
next serial id, or raises if it rejects the call. -/
def create_record (rejects : RejectOracle) (db : OdooDb) (model : String)
    (values : List (String × Value)) : Except String (Nat × OdooDb) :=
  if rejects model values then .error ("Odoo RPC failed for " ++ model)
  else .ok (db.nextId,
    { nextId := db.nextId + 1
      records := db.records ++ [{ model := model, id := db.nextId, values := values }] })

/-- `OdooClient.update_record(db, model, record_id, values)`. -/
def update_record (rejects : RejectOracle) (db : OdooDb) (model : String)
    (record_id : Nat) (values : List (String × Value)) : Except String OdooDb :=
  if rejects model values then .error ("Odoo RPC failed for " ++ model)
  else .ok
    { nextId := db.nextId
      records := db.records.map (fun r =>
        if r.model == model && r.id == record_id then { r with values := values } else r) }

/-- The Odoo databases, keyed by database name. An unknown name denotes a
fresh empty database. -/
def getDb (dbs : List (String × OdooDb)) (name : String) : OdooDb :=
  ((dbs.find? (fun p => p.fst == name)).map (fun p => p.snd)).getD {}

/-- Store back the state of one database. -/
def setDb (dbs : List (String × OdooDb)) (name : String) (db : OdooDb) :
    List (String × OdooDb) :=
  if dbs.any (fun p => p.fst == name) then
    dbs.map (fun p => if p.fst == name then (name, db) else p)
  else
    dbs ++ [(name, db)]

/-! ## `ngsi_sync.py` — the sync service -/

/-- `NGSI_TO_ODOO_MODEL`: the fixed routing table from NGSI-LD entity types
to Odoo models. -/
def NGSI_TO_ODOO_MODEL : List (String × String) :=
  [("AgriParcel", "product.template"),
   ("Device", "maintenance.equipment"),
   ("Building", "res.partner"),
   ("EnergyMeter", "energy.meter"),
   ("SolarPanel", "energy.installation"),
   ("WeatherStation", "maintenance.equipment")]

/-- `NGSI_TO_ODOO_MODEL.get(entity_type)`. -/
def ngsiModelFor (entity_type : String) : Option String :=
  ((NGSI_TO_ODOO_MODEL.find? (fun p => p.fst == entity_type)).map (fun p => p.snd))

/-- `_get_property_value(entity, property_name, default)`: `None` (absent key
or a key holding `None`) gives the default; a dict is unwrapped through its
`value` or `@value` key when present; everything else — including a dict
carrying neither key — is returned as-is. -/
def getPropD (entity : Entity) (property_name : String) (default : Value) : Value :=
  match lookupProp entity.props property_name with
  | none => default
  | some .vnone => default
  | some prop =>
    match prop with
    | .vdict fields =>
      match dictGet fields "value" with
      | some v => v
      | none =>
        match dictGet fields "@value" with
        | some v => v
        | none => prop
    | _ => prop

/-- `_get_property_value` with the Python default `None`. -/
def getProp (entity : Entity) (property_name : String) : Value :=
  getPropD entity property_name .vnone

/-- `x or y` on the result of a property read. -/
def pyOr (x y : Value) : Value := if x.isFalsy then y else x

/-- `_transform_agri_parcel`. -/
def transform_agri_parcel (entity : Entity) : List (String × Value) :=
  [("type", .vstr "product"),
   ("categ_id", .vnum 1),
   ("description", getProp entity "description"),
   ("x_area", getProp entity "area"),
   ("x_crop_type", getProp entity "cropType"),
   ("x_location", .vstr (pyStr (getProp entity "location")))]

/-- `_transform_device`. -/
def transform_device (entity : Entity) : List (String × Value) :=
  [("serial_no", getProp entity "serialNumber"),
   ("note", getProp entity "description"),
   ("x_device_type", getProp entity "deviceType"),
   ("x_status", getProp entity "status")]

/-- `_transform_energy_meter` (`meterType` defaults to `"production"`). -/
def transform_energy_meter (entity : Entity) : List (String × Value) :=
  [("code", getProp entity "meterCode"),
   ("meter_type", getPropD entity "meterType" (.vstr "production")),
   ("x_cups", getProp entity "cups")]

/-- `_transform_solar_panel`. -/
def transform_solar_panel (entity : Entity) : List (String × Value) :=
  [("installation_type", .vstr "solar"),
   ("power_peak", getProp entity "peakPower"),
   ("x_orientation", getProp entity "orientation"),
   ("x_tilt", getProp entity "tilt")]

/-- `_transform_building`: `address = _get_property_value(entity, "address")
or {}` then `.get` on it. A present non-dict address makes the Python
`.get` attribute lookup raise, hence the `Except`. -/
def transform_building (entity : Entity) : Except String (List (String × Value)) :=
  let address := pyOr (getProp entity "address") (.vdict [])
  match address with
  | .vdict fields =>
    .ok [("is_company", .vbool true),
         ("street", (dictGet fields "streetAddress").getD .vnone),
         ("city", (dictGet fields "addressLocality").getD .vnone),
         ("zip", (dictGet fields "postalCode").getD .vnone),
         ("country_id", .vbool false)]
  | _ => .error "AttributeError: object has no attribute get"

/-- `_transform_to_odoo(entity, odoo_model)`: base `name`/`x_ngsi_id` values
plus the type-specific update (branching on the entity's declared type; the
`odoo_model` argument is not consulted). -/
def transform_to_odoo (entity : Entity) (odoo_model : String) :
    Except String (List (String × Value)) :=
  let _ := odoo_model
  let values : List (String × Value) :=
    [("name", pyOr (getProp entity "name") (.vstr entity.id)),
     ("x_ngsi_id", .vstr entity.id)]
  if entity.type == "AgriParcel" then
    .ok (dictUpdate values (transform_agri_parcel entity))
  else if entity.type == "Device" then
    .ok (dictUpdate values (transform_device entity))
  else if entity.type == "EnergyMeter" then
    .ok (dictUpdate values (transform_energy_meter entity))
  else if entity.type == "SolarPanel" then
    .ok (dictUpdate values (transform_solar_panel entity))
  else if entity.type == "Building" then
    (transform_building entity).map (fun upd => dictUpdate values upd)
  else
    .ok values

/-- The persistent state a sync run touches: the `odoo_tenant_info` table,
the `odoo_entity_mappings` table, and the per-tenant Odoo databases. -/
structure SyncState where
  tenants : List (String × TenantInfo) := []
  mappings : List EntityMapping := []
  odoo : List (String × OdooDb) := []
deriving Repr

/-- What `sync_entity_to_odoo` returns on success (`id`, `model`, `name`). -/
structure SyncInfo where
  id : Nat
  model : String
  name : Value
deriving Repr

/-- `_get_odoo_database`: raises if the tenant has no `odoo_tenant_info`
row, else `info.get("database", f"nkz_odoo_.")` (the fallback name when the
column is NULL). -/
def get_odoo_database (tenant_id : String) (tenants : List (String × TenantInfo)) :
    Except String String :=
  match get_tenant_odoo_info tenant_id tenants with
  | none => .error ("No Odoo configured for tenant: " ++ tenant_id)
  | some info => .ok (info.database.getD ("nkz_odoo_" ++ tenant_id))

/-- `sync_entity_to_odoo(entity)`: classify the type, resolve the tenant
database, look up the mapping, transform, update-or-create the Odoo record,
then upsert the mapping row. Every raising path leaves the state as it was
when the exception fired (no path mutates before raising). -/
def sync_entity_to_odoo (rejects : RejectOracle) (tenant_id : String)
    (entity : Entity) (now : String) (st : SyncState) :
    Except String SyncInfo × SyncState :=
  let entity_id := entity.id
  let entity_type := entity.type
  match ngsiModelFor entity_type with
  | none => (.error ("Unsupported entity type: " ++ entity_type), st)
  | some odoo_model =>
    match get_odoo_database tenant_id st.tenants with
    | .error msg => (.error msg, st)
    | .ok db_name =>
      let existing := get_entity_mapping_by_ngsi_id tenant_id entity_id st.mappings
      match transform_to_odoo entity odoo_model with
      | .error msg => (.error msg, st)
      | .ok odoo_values =>
        let finish (odoo_id : Nat) (db : OdooDb) : Except String SyncInfo × SyncState :=
          let mappings := create_entity_mapping tenant_id
            { ngsi_id := entity_id
              ngsi_type := entity_type
              odoo_id := odoo_id
              odoo_model := odoo_model
              odoo_name := (dictGet odoo_values "name").getD (.vstr entity_id)
              last_sync := now } st.mappings
          (.ok { id := odoo_id
                 model := odoo_model
                 name := (dictGet odoo_values "name").getD (.vstr entity_id) },
           { st with mappings := mappings, odoo := setDb st.odoo db_name db })
        match existing with
        | some ex =>
          match update_record rejects (getDb st.odoo db_name) odoo_model ex.odoo_id odoo_values with
          | .error msg => (.error msg, st)
          | .ok db => finish ex.odoo_id db
        | none =>
          match create_record rejects (getDb st.odoo db_name) odoo_model odoo_values with
          | .error msg => (.error msg, st)
          | .ok (odoo_id, db) => finish odoo_id db

/-- Whether — and with which exception message — `sync_entity_to_odoo` fails
for an entity. The decision depends only on the tenant-info table (which a
sync run never mutates), never on the mapping store or the Odoo databases:
the transformed values are the same on the create and the update path. -/
def syncOutcome (rejects : RejectOracle) (tenants : List (String × TenantInfo))
    (tenant_id : String) (entity : Entity) : Option String :=
  match ngsiModelFor entity.type with
  | none => some ("Unsupported entity type: " ++ entity.type)
  | some odoo_model =>
    match get_odoo_database tenant_id tenants with
    | .error msg => some msg
    | .ok _ =>
      match transform_to_odoo entity odoo_model with
      | .error msg => some msg
      | .ok odoo_values =>
        if rejects odoo_model odoo_values then
          some ("Odoo RPC failed for " ++ odoo_model)
        else none

/-- The outcome of one `httpx` GET against Orion-LD: a response with a
status code and (entity-list) body, or a raised transport exception. -/
inductive HttpResult where
  | resp (status : Nat) (body : List Entity)
  | exn (msg : String)

/-- `fetch_entities_by_type(entity_type)`: 200 yields the body, any other
status is only logged and yields `[]`, a transport exception propagates. -/
def fetch_entities_by_type (http : String → HttpResult) (entity_type : String) :
    Except String (List Entity) :=
  match http entity_type with
  | .resp status body => if status == 200 then .ok body else .ok []
  | .exn msg => .error msg

/-- The inner per-entity loop of `full_sync`: each entity is attempted once;
an exception is caught, stringified as `Failed to sync .: .` and appended to
the error list, and the loop continues. -/
def syncEntities (rejects : RejectOracle) (tenant_id now : String) :
    List Entity → SyncState → Nat → List String → Nat × List String × SyncState
  | [], st, synced, errors => (synced, errors, st)
  | e :: rest, st, synced, errors =>
    match sync_entity_to_odoo rejects tenant_id e now st with
    | (.ok _, st') => syncEntities rejects tenant_id now rest st' (synced + 1) errors
    | (.error msg, st') =>
      syncEntities rejects tenant_id now rest st' synced
        (errors ++ ["Failed to sync " ++ e.id ++ ": " ++ msg])

/-- The outer per-type loop of `full_sync`: a fetch exception is caught,
stringified as `Failed to fetch .: .` and appended, and later types are
still attempted. -/
def syncTypes (rejects : RejectOracle) (http : String → HttpResult)
    (tenant_id now : String) :
    List String → SyncState → Nat → List String → (Nat × List String) × SyncState
  | [], st, synced, errors => ((synced, errors), st)
  | t :: rest, st, synced, errors =>
    match fetch_entities_by_type http t with
    | .ok entities =>
      let (synced', errors', st') := syncEntities rejects tenant_id now entities st synced errors
      syncTypes rejects http tenant_id now rest st' synced' errors'
    | .error msg =>
      syncTypes rejects http tenant_id now rest st synced
        (errors ++ ["Failed to fetch " ++ t ++ ": " ++ msg])

/-- The routing table's declared types, in iteration order. -/
def syncedTypes : List String := NGSI_TO_ODOO_MODEL.map (fun p => p.fst)

/-- `full_sync()`: sweep every declared type of the routing table, upsert
every fetched entity, and return `(synced, errors)` — always a result,
never an exception. -/
def full_sync (rejects : RejectOracle) (http : String → HttpResult)
    (tenant_id now : String) (st : SyncState) :
    (Nat × List String) × SyncState :=
  syncTypes rejects http tenant_id now syncedTypes st 0 []

/-- The entities a full-sync run obtains for one declared type (the empty
list when the fetch raises — the run then never reaches the entity loop). -/
def fetchedEntities (http : String → HttpResult) (t : String) : List Entity :=
  match fetch_entities_by_type http t with
  | .ok es => es
  | .error _ => []

/-- Whether the fetch for a type completes without raising. -/
def fetchOk (http : String → HttpResult) (t : String) : Bool :=
  match fetch_entities_by_type http t with
  | .ok _ => true
  | .error _ => false

/-- The concatenated batch of entities a full-sync run iterates over. -/
def fetchedBatch (http : String → HttpResult) : List Entity :=
  syncedTypes.flatMap (fetchedEntities http)

/-- The error-list entry `sync_entity_to_odoo` contributes for one entity,
if any. -/
def entityError (rejects : RejectOracle) (tenants : List (String × TenantInfo))
    (tenant_id : String) (e : Entity) : Option String :=
  (syncOutcome rejects tenants tenant_id e).map
    (fun m => "Failed to sync " ++ e.id ++ ": " ++ m)

/-- The error-list entries one declared type contributes to a full-sync run:
a single `Failed to fetch` entry when the fetch raises, the per-entity
`Failed to sync` entries when it returns 200, and nothing at all when it
returns a non-200 status (the fetch helper merely logs and yields `[]`). -/
def typeErrors (rejects : RejectOracle) (http : String → HttpResult)
    (tenants : List (String × TenantInfo)) (tenant_id : String)
    (t : String) : List String :=
  match fetch_entities_by_type http t with
  | .error m => ["Failed to fetch " ++ t ++ ": " ++ m]
  | .ok es => es.filterMap (entityError rejects tenants tenant_id)

/-! ### Concrete fixtures used by witnesses -/

/-- A provisioned tenant table holding only tenant `t1`. -/
def wTenants : List (String × TenantInfo) :=
  [("t1", { name := some "t1", database := some "nkz_odoo_t1",
            status := some "active", energy_modules_enabled := true,
            installed_modules := [], admin_email := none,
            created_at := none, error := none })]

/-- The sync state with tenant `t1` provisioned and empty stores. -/
def wState : SyncState := { tenants := wTenants }

/-- A broker whose `AgriParcel` page holds three entities, the middle one of
an unsupported type; every other type fetches an empty 200 page. -/
def wHttp : String → HttpResult := fun t =>
  if t == "AgriParcel" then
    .resp 200 [⟨"urn:x:1", "AgriParcel", []⟩, ⟨"urn:x:2", "Bogus", []⟩,
               ⟨"urn:x:3", "AgriParcel", []⟩]
  else .resp 200 []

/-- A remote that accepts every RPC. -/
def noReject : RejectOracle := fun _ _ => false

/-! ## Subscription identifiers (`register_tenant_subscriptions` and the
webhook's `_extract_tenant_from_subscription`) -/

/-- Python `str.split(sep)` with a one-character separator, on the character
list: split points at every separator, preserving empty chunks. -/
def splitCharAux (sep : Char) : List Char → List Char → List (List Char)
  | [], acc => [acc.reverse]
  | c :: rest, acc =>
    if c == sep then acc.reverse :: splitCharAux sep rest []
    else splitCharAux sep rest (c :: acc)

/-- Python `s.split(sep)` for a one-character separator (`"".split(sep)`
gives `[""]`, and empty chunks between adjacent separators are kept). -/
def pySplit (sep : Char) (s : String) : List String :=
  (splitCharAux sep s.toList []).map (fun cs => String.mk cs)

/-- Python `sep.join(parts)`. -/
def pyJoin (sep : String) : List String → String
  | [] => ""
  | [x] => x
  | x :: rest => x ++ sep ++ pyJoin sep rest

/-- Python `s.lower()` (the routing-table type names are ASCII). -/
def pyLower (s : String) : String := String.mk (s.toList.map Char.toLower)

/-- The deterministic subscription identifier built by
`register_tenant_subscriptions` for a (tenant, declared type) pair:
`urn:ngsi-ld:Subscription:nkz-odoo-(tenant_id)-(entity_type.lower())`. -/
def make_subscription_id (tenant_id entity_type : String) : String :=
  "urn:ngsi-ld:Subscription:nkz-odoo-" ++ tenant_id ++ "-" ++ pyLower entity_type

/-- `_extract_tenant_from_subscription(subscription_id)`: split on `:`, take
the last segment, split it on `-`, require at least four parts starting
`nkz`, `odoo`, and join everything between `odoo` and the final type part
back with `-`; otherwise `None`. -/
def extract_tenant_from_subscription (subscription_id : String) : Option String :=
  if (pySplit ':' subscription_id).length ≥ 4 then
    if (pySplit '-' (((pySplit ':' subscription_id).getLast?).getD "")).length ≥ 4
        && (pySplit '-' (((pySplit ':' subscription_id).getLast?).getD "")).getD 0 "" == "nkz"
        && (pySplit '-' (((pySplit ':' subscription_id).getLast?).getD "")).getD 1 "" == "odoo" then
      some (pyJoin "-"
        (((pySplit '-' (((pySplit ':' subscription_id).getLast?).getD "")).drop 2).dropLast))
    else
      none
  else
    none

/-- The webhook handler's tenant-determination step: an identifier whose
extraction yields `None` — or the falsy `""` — makes the handler return the
`ignored / unknown_subscription` outcome instead of syncing. -/
def webhookTenantFor (subscriptionId : String) : Option String :=
  match extract_tenant_from_subscription subscriptionId with
  | none => none
  | some t => if t == "" then none else some t

/-! ## `routers/sync.py` — the sync-status route -/

/-- An HTTPException as the routers raise it. -/
structure HttpError where
  status_code : Nat
  detail : String
deriving Repr

/-- The `SyncStatus` response model of `routers/sync.py`. -/
structure SyncStatusResp where
  status : String
  lastSync : Option String
deriving Repr

/-- `GET /status` (`get_sync_status` in `routers/sync.py`): a tenant with no
`odoo_sync_status` row reports `never_synced` and no timestamp. A stored
NULL status would fail the pydantic `str` field and surface as the
catch-all 500. -/
def route_get_sync_status (tenant_id : String)
    (table : List (String × StoredSyncStatus)) : Except HttpError SyncStatusResp :=
  match db_get_sync_status tenant_id table with
  | none => .ok { status := "never_synced", lastSync := none }
  | some row =>
    match row.status with
    | some v => .ok { status := v, lastSync := row.last_sync }
    | none => .error { status_code := 500, detail := "Failed to get sync status" }

/-! ## `routers/tenant.py` — tenant provisioning -/

/-- The request body of `POST /provision`. -/
structure ProvisionRequest where
  enableEnergyModules : Bool := true
  additionalModules : List String := []
deriving Repr

/-- The authenticated user dict (`user.get("email")`, `user.get("name")`). -/
structure UserInfo where
  email : Option String := none
  name : Option String := none
deriving Repr

/-- Outcomes of the external provisioning steps: `none` means the call
returns, `some msg` means it raises with that message.
`register_tenant_subscriptions` only raises on a transport error (a non-2xx
response is merely logged). -/
structure ProvisionOracle where
  duplicate_database : Option String := none
  install_modules : Option String := none
  create_user : Option String := none
  register_subscriptions : Option String := none

/-- The `TenantOdooInfo` response model. -/
structure TenantOdooInfoResp where
  id : String
  name : String
  odooDatabase : String
  odooUrl : String
  status : String
  lastSync : Option String
  energyModulesEnabled : Bool
  installedModules : List String
deriving Repr

/-- `_build_tenant_odoo_url`. -/
def build_tenant_odoo_url (tenant_id : String) : String :=
  "https://" ++ tenant_id ++ ".odoo.nkz.artotxiki.com"

/-- The error arm of `provision_tenant`: mark the tenant as `error` (the
caller's dict also carries `"error": str(e)` and `"failed_at"`, but
`save_tenant_odoo_info` only persists the keys it reads) and re-raise as a
500. -/
def provisionFail (tenant_id msg : String) (table : List (String × TenantInfo)) :
    Except HttpError TenantOdooInfoResp × List (String × TenantInfo) :=
  (.error { status_code := 500, detail := "Failed to provision Odoo: " ++ msg },
   save_tenant_odoo_info tenant_id
     (some { status := some "error", error := some msg }) table)

/-- `provision_tenant`: reject with 409 if the tenant is already `active`;
otherwise durably mark `provisioning`, run duplicate-db → install-modules →
create-admin-user → save-active → register-subscriptions, and on any step's
exception mark `error` and return a 500. -/
def provision_tenant (request : ProvisionRequest) (tenant_id : String)
    (user : UserInfo) (oracle : ProvisionOracle) (now : String)
    (table : List (String × TenantInfo)) :
    Except HttpError TenantOdooInfoResp × List (String × TenantInfo) :=
  let existing := get_tenant_odoo_info tenant_id table
  if (existing.map (fun i => i.status == some "active")).getD false then
    (.error { status_code := 409, detail := "Odoo already provisioned for this tenant" },
     table)
  else
    let table := save_tenant_odoo_info tenant_id
      (some { status := some "provisioning" }) table
    let db_name := "nkz_odoo_" ++ tenant_id
    match oracle.duplicate_database with
    | some msg => provisionFail tenant_id msg table
    | none =>
      let modules_to_install := ["base", "sale", "purchase", "stock", "account"]
        ++ (if request.enableEnergyModules then
              ["energy_community", "energy_selfconsumption", "energy_import_statement"]
            else [])
        ++ request.additionalModules
      match oracle.install_modules with
      | some msg => provisionFail tenant_id msg table
      | none =>
        let admin_email := user.email.getD ("admin@" ++ tenant_id ++ ".nkz")
        match oracle.create_user with
        | some msg => provisionFail tenant_id msg table
        | none =>
          let table := save_tenant_odoo_info tenant_id
            (some { name := some tenant_id
                    database := some db_name
                    status := some "active"
                    energy_modules_enabled := request.enableEnergyModules
                    installed_modules := modules_to_install
                    created_at := some now
                    admin_email := some admin_email }) table
          match oracle.register_subscriptions with
          | some msg => provisionFail tenant_id msg table
          | none =>
            (.ok { id := tenant_id
                   name := tenant_id
                   odooDatabase := db_name
                   odooUrl := build_tenant_odoo_url tenant_id
                   status := "active"
                   lastSync := none
                   energyModulesEnabled := request.enableEnergyModules
                   installedModules := modules_to_install },
             table)

/-! # Theorems -/

/-! ## Mapping-store upsert lemmas -/

theorem keyMatches_conflictUpdate (a b : String) (m : EntityMapping)
    (row : MappingInput) :
    keyMatches a b (conflictUpdate m row) = keyMatches a b m := rfl

theorem keyMatches_newRowOf (t : String) (row : MappingInput) :
    keyMatches t row.ngsi_id (newRowOf t row) = true := by
  simp [keyMatches, newRowOf]

theorem upsert_hasKey_self (t : String) (row : MappingInput)
    (store : List EntityMapping) :
    hasKey t row.ngsi_id (create_entity_mapping t row store) = true := by
  induction store with
  | nil => simp [create_entity_mapping, hasKey, keyMatches_newRowOf]
  | cons m rest ih =>
    unfold create_entity_mapping
    by_cases hm : keyMatches t row.ngsi_id m = true
    · simp [hasKey, hm, keyMatches_conflictUpdate]
    · simp only [hm, if_false, Bool.false_eq_true, ite_false]
      simp [hasKey] at ih ⊢
      exact Or.inr ih

theorem upsert_hasKey_other (t : String) (row : MappingInput)
    (t' eid' : String) (store : List EntityMapping)
    (h : hasKey t' eid' store = true) :
    hasKey t' eid' (create_entity_mapping t row store) = true := by
  induction store with
  | nil => simp [hasKey] at h
  | cons m rest ih =>
    unfold create_entity_mapping
    simp only [hasKey, List.any_cons, Bool.or_eq_true] at h
    by_cases hm : keyMatches t row.ngsi_id m = true
    · rw [if_pos hm]
      simp only [hasKey, List.any_cons, Bool.or_eq_true, keyMatches_conflictUpdate]
      exact h
    · rw [if_neg hm]
      simp only [hasKey, List.any_cons, Bool.or_eq_true]
      rcases h with h | h
      · exact Or.inl h
      · exact Or.inr (ih h)

theorem upsert_countKey (t : String) (row : MappingInput)
    (store : List EntityMapping)
    (h : countKey t row.ngsi_id store ≤ 1) :
    countKey t row.ngsi_id (create_entity_mapping t row store) = 1 := by
  induction store with
  | nil => simp [create_entity_mapping, countKey, keyMatches_newRowOf]
  | cons m rest ih =>
    unfold create_entity_mapping
    by_cases hm : keyMatches t row.ngsi_id m = true
    · rw [if_pos hm]
      have hcons : countKey t row.ngsi_id (m :: rest)
          = countKey t row.ngsi_id rest + 1 := by
        simp [countKey, List.countP_cons, hm]
      have hupd : countKey t row.ngsi_id (conflictUpdate m row :: rest)
          = countKey t row.ngsi_id rest + 1 := by
        simp [countKey, List.countP_cons, keyMatches_conflictUpdate, hm]
      rw [hcons] at h
      rw [hupd]
      omega
    · have hrest : countKey t row.ngsi_id rest ≤ 1 := by
        have h' := h
        simp only [countKey, List.countP_cons, hm] at h'
        simpa [countKey] using h'
      rw [if_neg hm]
      simp [countKey, List.countP_cons, hm]
      simpa [countKey] using ih hrest

theorem upsert_find_odoo_id (t : String) (row : MappingInput)
    (store : List EntityMapping) :
    (get_entity_mapping_by_ngsi_id t row.ngsi_id
        (create_entity_mapping t row store)).map (fun r => r.odoo_id)
      = some row.odoo_id := by
  induction store with
  | nil =>
    simp [create_entity_mapping, get_entity_mapping_by_ngsi_id, List.find?,
      newRowOf, keyMatches]
  | cons m rest ih =>
    unfold create_entity_mapping
    by_cases hm : keyMatches t row.ngsi_id m = true
    · rw [if_pos hm]
      have hm' : (m.tenant_id == t && m.ngsi_id == row.ngsi_id) = true := by
        simpa [keyMatches] using hm
      simp [get_entity_mapping_by_ngsi_id, List.find?, conflictUpdate, keyMatches, hm']
    · rw [if_neg hm]
      simp only [get_entity_mapping_by_ngsi_id] at ih ⊢
      rw [List.find?_cons_of_neg _ (by simpa using hm)]
      exact ih

/-! ## `sync_entity_to_odoo` characterization lemmas -/

theorem sync_error_spec (rejects : RejectOracle) (t : String) (e : Entity)
    (now msg : String) (st : SyncState)
    (h : syncOutcome rejects st.tenants t e = some msg) :
    sync_entity_to_odoo rejects t e now st = (.error msg, st) := by
  unfold syncOutcome at h
  unfold sync_entity_to_odoo
  cases hm : ngsiModelFor e.type with
  | none =>
    simp only [hm] at h ⊢
    injection h with h
    rw [h]
  | some model =>
    simp only [hm] at h ⊢
    cases hdb : get_odoo_database t st.tenants with
    | error m2 =>
      simp only [hdb] at h ⊢
      injection h with h
      rw [h]
    | ok db_name =>
      simp only [hdb] at h ⊢
      cases htr : transform_to_odoo e model with
      | error m3 =>
        simp only [htr] at h ⊢
        injection h with h
        rw [h]
      | ok vals =>
        simp only [htr] at h ⊢
        cases hrej : rejects model vals with
        | false => simp [hrej] at h
        | true =>
          simp only [hrej, if_true] at h
          injection h with h
          cases hex : get_entity_mapping_by_ngsi_id t e.id st.mappings with
          | some ex => simp [hex, update_record, hrej, h]
          | none => simp [hex, create_record, hrej, h]

theorem sync_ok_spec (rejects : RejectOracle) (t : String) (e : Entity)
    (now : String) (st : SyncState)
    (h : syncOutcome rejects st.tenants t e = none) :
    ∃ (info : SyncInfo) (row : MappingInput),
      row.ngsi_id = e.id ∧ row.odoo_id = info.id ∧
      (sync_entity_to_odoo rejects t e now st).fst = .ok info ∧
      (sync_entity_to_odoo rejects t e now st).snd.tenants = st.tenants ∧
      (sync_entity_to_odoo rejects t e now st).snd.mappings
        = create_entity_mapping t row st.mappings := by
  unfold syncOutcome at h
  unfold sync_entity_to_odoo
  cases hm : ngsiModelFor e.type with
  | none => simp [hm] at h
  | some model =>
    simp only [hm] at h ⊢
    cases hdb : get_odoo_database t st.tenants with
    | error m2 => simp [hdb] at h
    | ok db_name =>
      simp only [hdb] at h ⊢
      cases htr : transform_to_odoo e model with
      | error m3 => simp [htr] at h
      | ok vals =>
        simp only [htr] at h ⊢
        cases hrej : rejects model vals with
        | true => simp [hrej] at h
        | false =>
          cases hex : get_entity_mapping_by_ngsi_id t e.id st.mappings with
          | some ex =>
            refine ⟨{ id := ex.odoo_id, model := model,
                      name := (dictGet vals "name").getD (.vstr e.id) },
                    { ngsi_id := e.id, ngsi_type := e.type, odoo_id := ex.odoo_id,
                      odoo_model := model,
                      odoo_name := (dictGet vals "name").getD (.vstr e.id),
                      last_sync := now }, rfl, rfl, ?_, ?_, ?_⟩ <;>
              simp [hex, update_record, hrej]
          | none =>
            refine ⟨{ id := (getDb st.odoo db_name).nextId, model := model,
                      name := (dictGet vals "name").getD (.vstr e.id) },
                    { ngsi_id := e.id, ngsi_type := e.type,
                      odoo_id := (getDb st.odoo db_name).nextId,
                      odoo_model := model,
                      odoo_name := (dictGet vals "name").getD (.vstr e.id),
                      last_sync := now }, rfl, rfl, ?_, ?_, ?_⟩ <;>
              simp [hex, create_record, hrej]

theorem sync_update_reuses_id (rejects : RejectOracle) (t : String) (e : Entity)
    (now : String) (st : SyncState) (ex : EntityMapping)
    (h : syncOutcome rejects st.tenants t e = none)
    (hex : get_entity_mapping_by_ngsi_id t e.id st.mappings = some ex) :
    ∃ info : SyncInfo,
      (sync_entity_to_odoo rejects t e now st).fst = .ok info ∧
      info.id = ex.odoo_id := by
  unfold syncOutcome at h
  unfold sync_entity_to_odoo
  cases hm : ngsiModelFor e.type with
  | none => simp [hm] at h
  | some model =>
    simp only [hm] at h ⊢
    cases hdb : get_odoo_database t st.tenants with
    | error m2 => simp [hdb] at h
    | ok db_name =>
      simp only [hdb] at h ⊢
      cases htr : transform_to_odoo e model with
      | error m3 => simp [htr] at h
      | ok vals =>
        simp only [htr] at h ⊢
        cases hrej : rejects model vals with
        | true => simp [hrej] at h
        | false =>
          refine ⟨{ id := ex.odoo_id, model := model,
                    name := (dictGet vals "name").getD (.vstr e.id) }, ?_, rfl⟩
          simp [hex, update_record, hrej]

theorem sync_tenants_eq (rejects : RejectOracle) (t : String) (e : Entity)
    (now : String) (st : SyncState) :
    (sync_entity_to_odoo rejects t e now st).snd.tenants = st.tenants := by
  cases ho : syncOutcome rejects st.tenants t e with
  | some msg => rw [sync_error_spec rejects t e now msg st ho]
  | none =>
    obtain ⟨info, row, _, _, _, hten, _⟩ := sync_ok_spec rejects t e now st ho
    exact hten

theorem sync_hasKey_self (rejects : RejectOracle) (t : String) (e : Entity)
    (now : String) (st : SyncState)
    (h : syncOutcome rejects st.tenants t e = none) :
    hasKey t e.id (sync_entity_to_odoo rejects t e now st).snd.mappings = true := by
  obtain ⟨info, row, hrow, _, _, _, hmap⟩ := sync_ok_spec rejects t e now st h
  rw [hmap, ← hrow]
  exact upsert_hasKey_self t row st.mappings

theorem sync_preserves_hasKey (rejects : RejectOracle) (t : String) (e : Entity)
    (now : String) (st : SyncState) (t' eid' : String)
    (h : hasKey t' eid' st.mappings = true) :
    hasKey t' eid' (sync_entity_to_odoo rejects t e now st).snd.mappings = true := by
  cases ho : syncOutcome rejects st.tenants t e with
  | some msg => rw [sync_error_spec rejects t e now msg st ho]; exact h
  | none =>
    obtain ⟨info, row, _, _, _, _, hmap⟩ := sync_ok_spec rejects t e now st ho
    rw [hmap]
    exact upsert_hasKey_other t row t' eid' st.mappings h

/-! ## `full_sync` counting lemmas -/

theorem length_filterMap_isSome {α β : Type} (f : α → Option β) (l : List α) :
    (l.filterMap f).length = l.countP (fun a => (f a).isSome) := by
  induction l with
  | nil => rfl
  | cons x xs ih => cases h : f x <;> simp [List.filterMap_cons, h, List.countP_cons, ih]

theorem countP_isNone_add_isSome {α β : Type} (f : α → Option β) (l : List α) :
    l.countP (fun a => (f a).isNone) + l.countP (fun a => (f a).isSome) = l.length := by
  induction l with
  | nil => rfl
  | cons x xs ih => cases h : f x <;> simp [List.countP_cons, h] <;> omega

theorem syncEntities_spec (rejects : RejectOracle) (tid now : String) :
    ∀ (es : List Entity) (st : SyncState) (synced : Nat) (errors : List String),
      (syncEntities rejects tid now es st synced errors).1
        = synced + es.countP (fun e => (syncOutcome rejects st.tenants tid e).isNone) ∧
      (syncEntities rejects tid now es st synced errors).2.1
        = errors ++ es.filterMap (entityError rejects st.tenants tid) ∧
      (syncEntities rejects tid now es st synced errors).2.2.tenants = st.tenants := by
  intro es
  induction es with
  | nil => intro st synced errors; simp [syncEntities]
  | cons e rest ih =>
    intro st synced errors
    cases ho : syncOutcome rejects st.tenants tid e with
    | some msg =>
      have hrun := sync_error_spec rejects tid e now msg st ho
      obtain ⟨h1, h2, h3⟩ := ih st synced
        (errors ++ ["Failed to sync " ++ e.id ++ ": " ++ msg])
      unfold syncEntities
      rw [hrun]
      refine ⟨?_, ?_, ?_⟩
      · show (syncEntities rejects tid now rest st synced
            (errors ++ ["Failed to sync " ++ e.id ++ ": " ++ msg])).1
          = synced + (e :: rest).countP
              (fun e => (syncOutcome rejects st.tenants tid e).isNone)
        rw [h1, List.countP_cons]
        simp [ho]
      · show (syncEntities rejects tid now rest st synced
            (errors ++ ["Failed to sync " ++ e.id ++ ": " ++ msg])).2.1
          = errors ++ (e :: rest).filterMap (entityError rejects st.tenants tid)
        rw [h2, List.filterMap_cons]
        simp [entityError, ho]
      · exact h3
    | none =>
      obtain ⟨info, row, _, _, hfst, hten, _⟩ := sync_ok_spec rejects tid e now st ho
      have hrun : sync_entity_to_odoo rejects tid e now st
          = (.ok info, (sync_entity_to_odoo rejects tid e now st).snd) := by
        rw [← hfst]
      obtain ⟨h1, h2, h3⟩ := ih ((sync_entity_to_odoo rejects tid e now st).snd)
        (synced + 1) errors
      unfold syncEntities
      rw [hrun]
      refine ⟨?_, ?_, ?_⟩
      · show (syncEntities rejects tid now rest
            ((sync_entity_to_odoo rejects tid e now st).snd) (synced + 1) errors).1
          = synced + (e :: rest).countP
              (fun e => (syncOutcome rejects st.tenants tid e).isNone)
        rw [h1, hten, List.countP_cons]
        simp [ho]
        omega
      · show (syncEntities rejects tid now rest
            ((sync_entity_to_odoo rejects tid e now st).snd) (synced + 1) errors).2.1
          = errors ++ (e :: rest).filterMap (entityError rejects st.tenants tid)
        rw [h2, hten, List.filterMap_cons]
        simp [entityError, ho]
      · show (syncEntities rejects tid now rest
            ((sync_entity_to_odoo rejects tid e now st).snd) (synced + 1) errors).2.2.tenants
          = st.tenants
        rw [h3, hten]

theorem syncTypes_spec (rejects : RejectOracle) (http : String → HttpResult)
    (tid now : String) :
    ∀ (ts : List String) (st : SyncState) (synced : Nat) (errors : List String),
      (syncTypes rejects http tid now ts st synced errors).fst.fst
        = synced + (ts.flatMap (fetchedEntities http)).countP
            (fun e => (syncOutcome rejects st.tenants tid e).isNone) ∧
      (syncTypes rejects http tid now ts st synced errors).fst.snd
        = errors ++ ts.flatMap (typeErrors rejects http st.tenants tid) ∧
      (syncTypes rejects http tid now ts st synced errors).snd.tenants = st.tenants := by
  intro ts
  induction ts with
  | nil => intro st synced errors; simp [syncTypes]
  | cons t rest ih =>
    intro st synced errors
    cases hf : fetch_entities_by_type http t with
    | error m =>
      obtain ⟨h1, h2, h3⟩ := ih st synced (errors ++ ["Failed to fetch " ++ t ++ ": " ++ m])
      unfold syncTypes
      rw [hf]
      refine ⟨?_, ?_, ?_⟩
      · show (syncTypes rejects http tid now rest st synced
            (errors ++ ["Failed to fetch " ++ t ++ ": " ++ m])).fst.fst
          = synced + ((t :: rest).flatMap (fetchedEntities http)).countP
              (fun e => (syncOutcome rejects st.tenants tid e).isNone)
        rw [h1, List.flatMap_cons, List.countP_append]
        simp [fetchedEntities, hf]
      · show (syncTypes rejects http tid now rest st synced
            (errors ++ ["Failed to fetch " ++ t ++ ": " ++ m])).fst.snd
          = errors ++ (t :: rest).flatMap (typeErrors rejects http st.tenants tid)
        rw [h2, List.flatMap_cons]
        simp [typeErrors, hf]
      · exact h3
    | ok es =>
      rcases hr : syncEntities rejects tid now es st synced errors with ⟨s', e', st'⟩
      obtain ⟨g1, g2, g3⟩ := syncEntities_spec rejects tid now es st synced errors
      simp only [hr] at g1 g2 g3
      obtain ⟨h1, h2, h3⟩ := ih st' s' e'
      unfold syncTypes
      simp only [hf]
      simp only [hr]
      refine ⟨?_, ?_, ?_⟩
      · show (syncTypes rejects http tid now rest st' s' e').fst.fst
          = synced + ((t :: rest).flatMap (fetchedEntities http)).countP
              (fun e => (syncOutcome rejects st.tenants tid e).isNone)
        rw [h1, g3, g1, List.flatMap_cons, List.countP_append]
        simp [fetchedEntities, hf]
        omega
      · show (syncTypes rejects http tid now rest st' s' e').fst.snd
          = errors ++ (t :: rest).flatMap (typeErrors rejects http st.tenants tid)
        rw [h2, g3, g2, List.flatMap_cons]
        simp [typeErrors, hf]
      · show (syncTypes rejects http tid now rest st' s' e').snd.tenants = st.tenants
        rw [h3, g3]

theorem full_sync_spec (rejects : RejectOracle) (http : String → HttpResult)
    (tid now : String) (st : SyncState) :
    (full_sync rejects http tid now st).fst.fst
      = (fetchedBatch http).countP
          (fun e => (syncOutcome rejects st.tenants tid e).isNone) ∧
    (full_sync rejects http tid now st).fst.snd
      = syncedTypes.flatMap (typeErrors rejects http st.tenants tid) ∧
    (full_sync rejects http tid now st).snd.tenants = st.tenants := by
  obtain ⟨h1, h2, h3⟩ := syncTypes_spec rejects http tid now syncedTypes st 0 []
  exact ⟨by simpa [full_sync, fetchedBatch] using h1,
    by simpa [full_sync] using h2, h3⟩

theorem syncEntities_mappings (rejects : RejectOracle) (tid now : String) :
    ∀ (es : List Entity) (st : SyncState) (synced : Nat) (errors : List String),
      (∀ t' eid', hasKey t' eid' st.mappings = true →
        hasKey t' eid'
          (syncEntities rejects tid now es st synced errors).2.2.mappings = true) ∧
      (∀ e ∈ es, (syncOutcome rejects st.tenants tid e).isNone = true →
        hasKey tid e.id
          (syncEntities rejects tid now es st synced errors).2.2.mappings = true) := by
  intro es
  induction es with
  | nil =>
    intro st synced errors
    exact ⟨fun t' eid' h => h, by simp⟩
  | cons e rest ih =>
    intro st synced errors
    cases ho : syncOutcome rejects st.tenants tid e with
    | some msg =>
      have hrun := sync_error_spec rejects tid e now msg st ho
      obtain ⟨p1, p2⟩ := ih st synced
        (errors ++ ["Failed to sync " ++ e.id ++ ": " ++ msg])
      unfold syncEntities
      rw [hrun]
      constructor
      · intro t' eid' h
        exact p1 t' eid' h
      · intro e' he' hOk
        rcases List.mem_cons.mp he' with rfl | hmem
        · rw [ho] at hOk
          simp at hOk
        · exact p2 e' hmem hOk
    | none =>
      obtain ⟨info, row, _, _, hfst, hten, _⟩ := sync_ok_spec rejects tid e now st ho
      have hrun : sync_entity_to_odoo rejects tid e now st
          = (.ok info, (sync_entity_to_odoo rejects tid e now st).snd) := by
        rw [← hfst]
      obtain ⟨p1, p2⟩ := ih ((sync_entity_to_odoo rejects tid e now st).snd)
        (synced + 1) errors
      unfold syncEntities
      rw [hrun]
      constructor
      · intro t' eid' h
        exact p1 t' eid' (sync_preserves_hasKey rejects tid e now st t' eid' h)
      · intro e' he' hOk
        rcases List.mem_cons.mp he' with rfl | hmem
        · exact p1 tid e'.id (sync_hasKey_self rejects tid e' now st ho)
        · refine p2 e' hmem ?_
          rw [hten]
          exact hOk

theorem syncTypes_mappings (rejects : RejectOracle) (http : String → HttpResult)
    (tid now : String) :
    ∀ (ts : List String) (st : SyncState) (synced : Nat) (errors : List String),
      (∀ t' eid', hasKey t' eid' st.mappings = true →
        hasKey t' eid'
          (syncTypes rejects http tid now ts st synced errors).snd.mappings = true) ∧
      (∀ t ∈ ts, ∀ e ∈ fetchedEntities http t,
        (syncOutcome rejects st.tenants tid e).isNone = true →
        hasKey tid e.id
          (syncTypes rejects http tid now ts st synced errors).snd.mappings = true) := by
  intro ts
  induction ts with
  | nil =>
    intro st synced errors
    exact ⟨fun t' eid' h => h, by simp⟩
  | cons t rest ih =>
    intro st synced errors
    cases hf : fetch_entities_by_type http t with
    | error m =>
      obtain ⟨p1, p2⟩ := ih st synced (errors ++ ["Failed to fetch " ++ t ++ ": " ++ m])
      unfold syncTypes
      rw [hf]
      constructor
      · intro t' eid' h
        exact p1 t' eid' h
      · intro ty hty e he hOk
        rcases List.mem_cons.mp hty with rfl | hmem
        · rw [fetchedEntities, hf] at he
          simp at he
        · exact p2 ty hmem e he hOk
    | ok es =>
      rcases hr : syncEntities rejects tid now es st synced errors with ⟨s', e', st'⟩
      obtain ⟨q1, q2⟩ := syncEntities_mappings rejects tid now es st synced errors
      obtain ⟨g1, g2, g3⟩ := syncEntities_spec rejects tid now es st synced errors
      simp only [hr] at q1 q2 g3
      obtain ⟨p1, p2⟩ := ih st' s' e'
      unfold syncTypes
      simp only [hf]
      simp only [hr]
      constructor
      · intro t' eid' h
        exact p1 t' eid' (q1 t' eid' h)
      · intro ty hty e he hOk
        rcases List.mem_cons.mp hty with rfl | hmem
        · rw [fetchedEntities, hf] at he
          exact p1 tid e.id (q2 e he hOk)
        · refine p2 ty hmem e he ?_
          rw [g3]
          exact hOk

theorem flatMap_typeErrors_length (rejects : RejectOracle) (http : String → HttpResult)
    (tns : List (String × TenantInfo)) (tid : String) :
    ∀ ts : List String, ts.all (fetchOk http) = true →
      (ts.flatMap (typeErrors rejects http tns tid)).length
        = (ts.flatMap (fetchedEntities http)).countP
            (fun e => (syncOutcome rejects tns tid e).isSome) := by
  intro ts
  induction ts with
  | nil => intro _; rfl
  | cons t rest ih =>
    intro hall
    rw [List.all_cons, Bool.and_eq_true] at hall
    cases hf : fetch_entities_by_type http t with
    | error m => simp [fetchOk, hf] at hall
    | ok es =>
      have hte : typeErrors rejects http tns tid t
          = es.filterMap (entityError rejects tns tid) := by
        simp [typeErrors, hf]
      have hfe : fetchedEntities http t = es := by
        simp [fetchedEntities, hf]
      rw [List.flatMap_cons, List.flatMap_cons, List.length_append,
        List.countP_append, ih hall.2, hte, hfe, length_filterMap_isSome]
      congr 1
      refine List.countP_congr ?_
      intro e _
      simp [entityError]

/-- C3: a full-sync run over a batch of `N` fetched entities (every fetch
completing) in which exactly one entity's sync fails attempts every entity
(each exactly once — `synced` and the error list together account for the
whole batch), returns a result with `synced = N - 1` and one error entry,
and the mapping store holds a row for every succeeding entity. -/
theorem full_sync_partial_failure (rejects : RejectOracle) (http : String → HttpResult)
    (tid now : String) (st : SyncState) (N : Nat)
    (hN : (fetchedBatch http).length = N)
    (hfetch : syncedTypes.all (fetchOk http) = true)
    (hfail : (fetchedBatch http).countP
        (fun e => (syncOutcome rejects st.tenants tid e).isSome) = 1) :
    (full_sync rejects http tid now st).fst.fst = N - 1 ∧
    (full_sync rejects http tid now st).fst.snd.length = 1 ∧
    (∀ e ∈ fetchedBatch http,
      (syncOutcome rejects st.tenants tid e).isNone = true →
      hasKey tid e.id (full_sync rejects http tid now st).snd.mappings = true) := by
  obtain ⟨h1, h2, _⟩ := full_sync_spec rejects http tid now st
  refine ⟨?_, ?_, ?_⟩
  · rw [h1]
    have hsum := countP_isNone_add_isSome
      (syncOutcome rejects st.tenants tid) (fetchedBatch http)
    omega
  · rw [h2, flatMap_typeErrors_length rejects http st.tenants tid syncedTypes hfetch]
    exact hfail
  · intro e he hOk
    obtain ⟨p1, p2⟩ := syncTypes_mappings rejects http tid now syncedTypes st 0 []
    obtain ⟨t, ht, he'⟩ := List.mem_flatMap.mp he
    exact p2 t ht e he' hOk

/-- Witness for C3: tenant `t1`, a three-entity `AgriParcel` page whose
middle entity has an unsupported type, every other page empty: 2 synced,
1 error, mappings for both succeeding entities. -/
theorem full_sync_partial_failure_witness :
    (fetchedBatch wHttp).length = 3 ∧
    syncedTypes.all (fetchOk wHttp) = true ∧
    (fetchedBatch wHttp).countP
        (fun e => (syncOutcome noReject wState.tenants "t1" e).isSome) = 1 ∧
    ((full_sync noReject wHttp "t1" "T0" wState).fst.fst = 3 - 1 ∧
     (full_sync noReject wHttp "t1" "T0" wState).fst.snd.length = 1 ∧
     (∀ e ∈ fetchedBatch wHttp,
        (syncOutcome noReject wState.tenants "t1" e).isNone = true →
        hasKey "t1" e.id (full_sync noReject wHttp "t1" "T0" wState).snd.mappings = true)) :=
  ⟨rfl, rfl, rfl,
   full_sync_partial_failure noReject wHttp "t1" "T0" wState 3 rfl rfl rfl⟩

/-- Counterexample to C5 as stated: a fetch that fails with an HTTP 500
response is only logged — `fetch_entities_by_type` turns it into an empty
page — so `full_sync` reports no error entry for it: the run below fails
every fetch with a 500 yet returns an empty error list. -/
theorem full_sync_http_fetch_failure_unreported :
    fetch_entities_by_type (fun _ => .resp 500 []) "AgriParcel" = .ok [] ∧
    (full_sync noReject (fun _ => .resp 500 []) "t1" "T0" wState).fst = (0, []) :=
  ⟨rfl, rfl⟩

/-- C5 as amended: `full_sync` always returns a result whose error list is
exactly the per-type contributions, where a fetch that raises (transport
error) contributes its stringified `Failed to fetch` entry, a 200 fetch
contributes one stringified `Failed to sync` entry per failing entity — and
a fetch completing with a non-200 status yields an empty page and no error
entry (it is only logged). -/
theorem full_sync_error_propagation (rejects : RejectOracle)
    (http : String → HttpResult) (tid now : String) (st : SyncState) :
    ((full_sync rejects http tid now st).fst.snd
      = syncedTypes.flatMap (typeErrors rejects http st.tenants tid)) ∧
    (∀ t msg, http t = .exn msg →
        typeErrors rejects http st.tenants tid t
          = ["Failed to fetch " ++ t ++ ": " ++ msg]) ∧
    (∀ t es, http t = .resp 200 es →
        typeErrors rejects http st.tenants tid t
          = es.filterMap (fun e => (syncOutcome rejects st.tenants tid e).map
              (fun m => "Failed to sync " ++ e.id ++ ": " ++ m))) ∧
    (∀ t status es, http t = .resp status es → status ≠ 200 →
        typeErrors rejects http st.tenants tid t = []) := by
  refine ⟨(full_sync_spec rejects http tid now st).2.1, ?_, ?_, ?_⟩
  · intro t msg h
    simp [typeErrors, fetch_entities_by_type, h]
  · intro t es h
    have hfe : fetch_entities_by_type http t = .ok es := by
      simp [fetch_entities_by_type, h]
    simp only [typeErrors, hfe]
    rfl
  · intro t status es h hne
    simp [typeErrors, fetch_entities_by_type, h, hne]

/-- Witness for (amended) C5: a transport failure on the `Device` fetch is
reported as a `Failed to fetch` entry, while a 500 on any other type
contributes nothing. -/
theorem full_sync_error_propagation_witness :
    typeErrors noReject
        (fun t => if t == "Device" then .exn "boom" else .resp 500 []) [] "t1" "Device"
      = ["Failed to fetch Device: boom"] ∧
    typeErrors noReject
        (fun t => if t == "Device" then .exn "boom" else .resp 500 []) [] "t1" "AgriParcel"
      = [] :=
  ⟨(full_sync_error_propagation noReject
      (fun t => if t == "Device" then .exn "boom" else .resp 500 []) "t1" "T0"
      { tenants := [] }).2.1 "Device" "boom" rfl,
   (full_sync_error_propagation noReject
      (fun t => if t == "Device" then .exn "boom" else .resp 500 []) "t1" "T0"
      { tenants := [] }).2.2.2 "AgriParcel" 500 [] rfl (by decide)⟩

/-! ## Split/join lemmas for the subscription-identifier round trip -/

theorem splitCharAux_sep_cons (sep : Char) (ds acc : List Char) :
    splitCharAux sep (sep :: ds) acc = acc.reverse :: splitCharAux sep ds [] := by
  simp [splitCharAux]

theorem splitCharAux_no_sep_append (sep : Char) (cs : List Char)
    (h : ∀ c ∈ cs, (c == sep) = false) :
    ∀ (ds acc : List Char),
      splitCharAux sep (cs ++ ds) acc = splitCharAux sep ds (cs.reverse ++ acc) := by
  induction cs with
  | nil => intro ds acc; simp
  | cons c cs' ih =>
    intro ds acc
    have hc : (c == sep) = false := h c (by simp)
    have h' : ∀ x ∈ cs', (x == sep) = false := fun x hx => h x (by simp [hx])
    have step : splitCharAux sep (c :: (cs' ++ ds)) acc
        = splitCharAux sep (cs' ++ ds) (c :: acc) := by
      simp [splitCharAux, hc]
    rw [List.cons_append, step, ih h']
    simp

theorem splitCharAux_no_sep (sep : Char) (cs : List Char)
    (h : ∀ c ∈ cs, (c == sep) = false) (acc : List Char) :
    splitCharAux sep cs acc = [acc.reverse ++ cs] := by
  have h0 := splitCharAux_no_sep_append sep cs h [] acc
  rw [List.append_nil] at h0
  rw [h0]
  simp [splitCharAux]

theorem splitCharAux_append_sep (sep : Char) (xs : List Char) :
    ∀ (ys acc : List Char),
      splitCharAux sep (xs ++ sep :: ys) acc
        = splitCharAux sep xs acc ++ splitCharAux sep ys [] := by
  induction xs with
  | nil => intro ys acc; simp [splitCharAux]
  | cons c xs' ih =>
    intro ys acc
    by_cases hc : (c == sep) = true
    · have hceq : c = sep := eq_of_beq hc
      subst hceq
      rw [List.cons_append, splitCharAux_sep_cons, ih, splitCharAux_sep_cons,
        List.cons_append]
    · have step : ∀ (rest acc' : List Char), splitCharAux sep (c :: rest) acc'
          = splitCharAux sep rest (c :: acc') := by
        intro rest acc'
        simp [splitCharAux, hc]
      rw [List.cons_append, step, ih, step]

theorem splitCharAux_ne_nil (sep : Char) (xs : List Char) :
    ∀ acc : List Char, splitCharAux sep xs acc ≠ [] := by
  induction xs with
  | nil => intro acc; simp [splitCharAux]
  | cons c xs' ih =>
    intro acc
    by_cases hc : (c == sep) = true
    · simp [splitCharAux, hc]
    · simp only [splitCharAux, hc, Bool.false_eq_true, ite_false]
      exact ih (c :: acc)

theorem pyJoin_cons_of_ne_nil (s x : String) (l : List String) (h : l ≠ []) :
    pyJoin s (x :: l) = x ++ s ++ pyJoin s l := by
  cases l with
  | nil => exact absurd rfl h
  | cons y ys => rfl

theorem mk_append_mk (a b : List Char) :
    String.mk a ++ String.mk b = String.mk (a ++ b) := rfl

theorem pyJoin_splitCharAux (sep : Char) (xs : List Char) :
    ∀ acc : List Char,
      pyJoin (String.mk [sep])
          ((splitCharAux sep xs acc).map (fun cs => String.mk cs))
        = String.mk (acc.reverse ++ xs) := by
  induction xs with
  | nil => intro acc; simp [splitCharAux, pyJoin]
  | cons c xs' ih =>
    intro acc
    by_cases hc : (c == sep) = true
    · have hceq : c = sep := eq_of_beq hc
      subst hceq
      rw [splitCharAux_sep_cons, List.map_cons,
        pyJoin_cons_of_ne_nil _ _ _ (by simp [splitCharAux_ne_nil]),
        ih, mk_append_mk, mk_append_mk]
      simp
    · simp only [splitCharAux, hc, Bool.false_eq_true, ite_false]
      rw [ih]
      simp

theorem not_mem_beq_false {c : Char} {l : List Char} (h : c ∉ l) :
    ∀ x ∈ l, (x == c) = false := by
  intro x hx
  exact beq_eq_false_iff_ne.mpr (fun he => h (he ▸ hx))

/-- Core of the round trip: an identifier generated for a colon-free tenant
id and a colon-free, hyphen-free (lowercased) type name parses back to
exactly the tenant id. -/
theorem extract_make_roundtrip (tenant lt : String)
    (ht : ':' ∉ tenant.toList)
    (h1 : ':' ∉ lt.toList) (h2 : '-' ∉ lt.toList) :
    extract_tenant_from_subscription
        ("urn:ngsi-ld:Subscription:nkz-odoo-" ++ tenant ++ "-" ++ lt)
      = some tenant := by
  have happ : ∀ a b : String, (a ++ b).toList = a.toList ++ b.toList := by
    intro a b; simp [String.toList]
  have hs : ("urn:ngsi-ld:Subscription:nkz-odoo-" ++ tenant ++ "-" ++ lt).toList
      = "urn".toList ++ ':' :: ("ngsi-ld".toList ++ ':' :: ("Subscription".toList
          ++ ':' :: ("nkz-odoo-".toList ++ (tenant.toList ++ '-' :: lt.toList)))) := by
    rw [happ, happ, happ]
    simp [List.append_assoc]
  have hlastcs : ∀ c ∈ "nkz-odoo-".toList ++ (tenant.toList ++ '-' :: lt.toList),
      (c == ':') = false := by
    intro c hc
    rcases List.mem_append.mp hc with hc | hc
    · exact (by decide : ∀ x ∈ "nkz-odoo-".toList, (x == ':') = false) c hc
    · rcases List.mem_append.mp hc with hc | hc
      · exact not_mem_beq_false ht c hc
      · rcases List.mem_cons.mp hc with rfl | hc
        · rfl
        · exact not_mem_beq_false h1 c hc
  have hsplit : pySplit ':' ("urn:ngsi-ld:Subscription:nkz-odoo-" ++ tenant ++ "-" ++ lt)
      = ["urn", "ngsi-ld", "Subscription",
         String.mk ("nkz-odoo-".toList ++ (tenant.toList ++ '-' :: lt.toList))] := by
    unfold pySplit
    rw [hs, splitCharAux_append_sep, splitCharAux_append_sep, splitCharAux_append_sep,
      splitCharAux_no_sep ':' "urn".toList (by decide) [],
      splitCharAux_no_sep ':' "ngsi-ld".toList (by decide) [],
      splitCharAux_no_sep ':' "Subscription".toList (by decide) [],
      splitCharAux_no_sep ':' _ hlastcs []]
    simp
  have hmk : (String.mk ("nkz-odoo-".toList ++ (tenant.toList ++ '-' :: lt.toList))).toList
      = "nkz".toList ++ '-' :: ("odoo".toList ++ '-' :: (tenant.toList ++ '-' :: lt.toList)) :=
    rfl
  have hnp : pySplit '-'
        (String.mk ("nkz-odoo-".toList ++ (tenant.toList ++ '-' :: lt.toList)))
      = "nkz" :: "odoo"
          :: ((splitCharAux '-' tenant.toList []).map (fun cs => String.mk cs) ++ [lt]) := by
    unfold pySplit
    rw [hmk, splitCharAux_append_sep, splitCharAux_append_sep, splitCharAux_append_sep,
      splitCharAux_no_sep '-' "nkz".toList (by decide) [],
      splitCharAux_no_sep '-' "odoo".toList (by decide) [],
      splitCharAux_no_sep '-' lt.toList (not_mem_beq_false h2) []]
    simp
  have hne : (splitCharAux '-' tenant.toList []).map (fun cs => String.mk cs) ≠ [] := by
    simp [splitCharAux_ne_nil]
  have hlen1 : 0 < ((splitCharAux '-' tenant.toList []).map (fun cs => String.mk cs)).length :=
    List.length_pos.mpr hne
  have hpj := pyJoin_splitCharAux '-' tenant.toList []
  simp only [List.reverse_nil, List.nil_append] at hpj
  unfold extract_tenant_from_subscription
  rw [hsplit]
  simp only [List.getLast?_cons_cons, List.getLast?_singleton, Option.getD_some]
  rw [hnp]
  rw [if_pos (by simp)]
  rw [if_pos (by
    simp only [List.length_cons, List.length_append, List.length_singleton,
      List.getD_cons_zero, List.getD_cons_succ, Bool.and_eq_true, beq_self_eq_true,
      decide_eq_true_eq, and_true]
    omega)]
  simp only [List.drop_succ_cons, List.drop_zero, List.dropLast_concat]
  rw [show ("-" : String) = String.mk ['-'] from rfl, hpj]
  rfl

/-- Counterexample to C8 as stated: the universally quantified round trip
fails for a tenant id containing a colon — the identifier generated for
tenant `"a:b"` splits into five colon segments, its final segment has only
two hyphen-separated parts, and extraction yields no tenant instead of
`"a:b"`. -/
theorem subscription_roundtrip_colon_counterexample :
    extract_tenant_from_subscription (make_subscription_id "a:b" "AgriParcel") = none ∧
    (none : Option String) ≠ some "a:b" :=
  ⟨by decide, by decide⟩

/-- C8 as amended: for every tenant id that does not contain a colon (and
every declared type of the routing table) the generated subscription
identifier parses back to exactly that tenant id; and an identifier whose
final colon segment has fewer than four hyphen-separated parts parses to no
tenant — the webhook then takes its `ignored / unknown_subscription`
outcome rather than raising. -/
theorem subscription_id_roundtrip :
    (∀ tenant_id : String, ':' ∉ tenant_id.toList →
      ∀ declared_type ∈ syncedTypes,
        extract_tenant_from_subscription (make_subscription_id tenant_id declared_type)
          = some tenant_id) ∧
    (∀ sid : String,
        (pySplit '-' (((pySplit ':' sid).getLast?).getD "")).length < 4 →
        extract_tenant_from_subscription sid = none ∧ webhookTenantFor sid = none) := by
  constructor
  · intro tenant ht ty hty
    fin_cases hty <;>
      exact extract_make_roundtrip tenant _ ht (by decide) (by decide)
  · intro sid hlt
    have hex : extract_tenant_from_subscription sid = none := by
      unfold extract_tenant_from_subscription
      by_cases hp : (pySplit ':' sid).length ≥ 4
      · rw [if_pos hp, if_neg ?_]
        simp only [Bool.and_eq_true, decide_eq_true_eq]
        rintro ⟨⟨h4, _⟩, _⟩
        omega
      · rw [if_neg hp]
    refine ⟨hex, ?_⟩
    unfold webhookTenantFor
    rw [hex]

/-- Witness for (amended) C8: the spec's own example — tenant `farm-7` with
declared type `AgriParcel` round-trips, and the four-segment identifier
`urn:ngsi-ld:Subscription:nkz-odoo-x` (final segment of three hyphen parts)
parses to no tenant. -/
theorem subscription_id_roundtrip_witness :
    extract_tenant_from_subscription (make_subscription_id "farm-7" "AgriParcel")
      = some "farm-7" ∧
    extract_tenant_from_subscription "urn:ngsi-ld:Subscription:nkz-odoo-x" = none :=
  ⟨subscription_id_roundtrip.1 "farm-7" (by decide) "AgriParcel" (by decide),
   (subscription_id_roundtrip.2 "urn:ngsi-ld:Subscription:nkz-odoo-x" (by decide)).1⟩

/-- C1: upserting the identical snapshot twice (supported type, provisioned
tenant, remote accepting the transformed values — expressed as the first
sync succeeding; store satisfying the unique-key constraint) returns the
same internal record id both times and leaves exactly one mapping row for
`(tenant, entity id)`: the second run finds the mapping written by the
first, reuses its stored `odoo_id` on the update path, and overwrites
rather than duplicates the row. -/
theorem upsert_entity_idempotent (rejects : RejectOracle) (t : String) (e : Entity)
    (now1 now2 : String) (st : SyncState)
    (hok : syncOutcome rejects st.tenants t e = none)
    (hcount : countKey t e.id st.mappings ≤ 1) :
    ∃ (info1 info2 : SyncInfo) (st1 st2 : SyncState) (ex : EntityMapping),
      sync_entity_to_odoo rejects t e now1 st = (.ok info1, st1) ∧
      sync_entity_to_odoo rejects t e now2 st1 = (.ok info2, st2) ∧
      get_entity_mapping_by_ngsi_id t e.id st1.mappings = some ex ∧
      ex.odoo_id = info1.id ∧
      info2.id = info1.id ∧
      countKey t e.id st1.mappings = 1 ∧
      countKey t e.id st2.mappings = 1 := by
  obtain ⟨info1, row1, hrow1, hrowid1, hfst1, hten1, hmap1⟩ :=
    sync_ok_spec rejects t e now1 st hok
  set st1 := (sync_entity_to_odoo rejects t e now1 st).snd with hst1
  have h1 : sync_entity_to_odoo rejects t e now1 st = (.ok info1, st1) := by
    rw [← hfst1]
  have hcount1 : countKey t e.id st1.mappings = 1 := by
    rw [hmap1, ← hrow1]
    exact upsert_countKey t row1 st.mappings (hrow1 ▸ hcount)
  have hfind1 : (get_entity_mapping_by_ngsi_id t e.id st1.mappings).map
      (fun r => r.odoo_id) = some row1.odoo_id := by
    rw [hmap1, ← hrow1]
    exact upsert_find_odoo_id t row1 st.mappings
  obtain ⟨ex, hex, hexid⟩ : ∃ ex,
      get_entity_mapping_by_ngsi_id t e.id st1.mappings = some ex ∧
      ex.odoo_id = row1.odoo_id := by
    cases hfd : get_entity_mapping_by_ngsi_id t e.id st1.mappings with
    | none => rw [hfd] at hfind1; exact absurd hfind1 (by simp)
    | some ex => rw [hfd] at hfind1; exact ⟨ex, rfl, by simpa using hfind1⟩
  have hok1 : syncOutcome rejects st1.tenants t e = none := by
    rw [hten1]; exact hok
  obtain ⟨info2, row2, hrow2, hrowid2, hfst2, hten2, hmap2⟩ :=
    sync_ok_spec rejects t e now2 st1 hok1
  obtain ⟨info2', hfst2', hid2'⟩ :=
    sync_update_reuses_id rejects t e now2 st1 ex hok1 hex
  have hinfo22 : info2 = info2' := by
    rw [hfst1] at *
    exact Except.ok.inj (hfst2.symm.trans hfst2')
  set st2 := (sync_entity_to_odoo rejects t e now2 st1).snd with hst2
  have h2 : sync_entity_to_odoo rejects t e now2 st1 = (.ok info2, st2) := by
    rw [← hfst2]
  have hcount2 : countKey t e.id st2.mappings = 1 := by
    rw [hmap2, ← hrow2]
    exact upsert_countKey t row2 st1.mappings (hrow2 ▸ hcount1.le)
  exact ⟨info1, info2, st1, st2, ex, h1, h2, hex,
    hexid.trans hrowid1, by rw [hinfo22, hid2', hexid, hrowid1],
    hcount1, hcount2⟩

/-- Witness for C1: the `AgriParcel` snapshot `urn:x:1` against a
provisioned tenant `t1`, an empty mapping store and an accepting remote. -/
theorem upsert_entity_idempotent_witness :
    syncOutcome (fun _ _ => false)
        ({ tenants := [("t1", { name := some "t1", database := some "nkz_odoo_t1",
                                status := some "active", energy_modules_enabled := true,
                                installed_modules := [], admin_email := none,
                                created_at := none, error := none })] } : SyncState).tenants
        "t1" ⟨"urn:x:1", "AgriParcel", [("area", .vdict [("value", .vnum 3)])]⟩ = none ∧
    (∃ (info1 info2 : SyncInfo) (st1 st2 : SyncState) (ex : EntityMapping),
      sync_entity_to_odoo (fun _ _ => false) "t1"
          ⟨"urn:x:1", "AgriParcel", [("area", .vdict [("value", .vnum 3)])]⟩ "T1"
          { tenants := [("t1", { name := some "t1", database := some "nkz_odoo_t1",
                                 status := some "active", energy_modules_enabled := true,
                                 installed_modules := [], admin_email := none,
                                 created_at := none, error := none })] }
        = (.ok info1, st1) ∧
      sync_entity_to_odoo (fun _ _ => false) "t1"
          ⟨"urn:x:1", "AgriParcel", [("area", .vdict [("value", .vnum 3)])]⟩ "T2" st1
        = (.ok info2, st2) ∧
      get_entity_mapping_by_ngsi_id "t1" "urn:x:1" st1.mappings = some ex ∧
      ex.odoo_id = info1.id ∧
      info2.id = info1.id ∧
      countKey "t1" "urn:x:1" st1.mappings = 1 ∧
      countKey "t1" "urn:x:1" st2.mappings = 1) :=
  ⟨rfl,
   upsert_entity_idempotent (fun _ _ => false) "t1"
     ⟨"urn:x:1", "AgriParcel", [("area", .vdict [("value", .vnum 3)])]⟩ "T1" "T2"
     { tenants := [("t1", { name := some "t1", database := some "nkz_odoo_t1",
                            status := some "active", energy_modules_enabled := true,
                            installed_modules := [], admin_email := none,
                            created_at := none, error := none })] }
     rfl (by decide)⟩

/-- C2: every mapping-store read filters on the tenant: `list_mappings(A, …)`
returns only rows whose tenant id is `A` (so a row written under a distinct
tenant `B` — even with a textually identical external id — is never
returned), and `get_mapping(A, external_id)` only ever yields a row whose
tenant id is `A`. -/
theorem list_mappings_all_tenant (tenantA : String) (type_filter : Option String)
    (store : List EntityMapping) :
    (get_entity_mappings tenantA type_filter store).all
      (fun m => m.tenant_id == tenantA) = true := by
  rcases type_filter with _ | t
  · simp [get_entity_mappings, List.all_eq_true, List.mem_filter]
  · simp only [get_entity_mappings]
    split
    · simp [List.all_eq_true, List.mem_filter]
    · simp only [List.all_eq_true, List.mem_filter]
      intro m hm
      exact ((Bool.and_eq_true ..).mp hm.2).1

theorem mapping_reads_are_tenant_scoped :
    (∀ (tenantA : String) (type_filter : Option String) (store : List EntityMapping),
        (get_entity_mappings tenantA type_filter store).all
          (fun m => m.tenant_id == tenantA) = true) ∧
    (∀ (tenantA tenantB : String) (type_filter : Option String)
        (store : List EntityMapping) (m : EntityMapping),
        tenantA ≠ tenantB → m.tenant_id = tenantB →
        m ∉ get_entity_mappings tenantA type_filter store) ∧
    (∀ (tenantA ngsi_id : String) (store : List EntityMapping) (m : EntityMapping),
        get_entity_mapping_by_ngsi_id tenantA ngsi_id store = some m →
        m.tenant_id = tenantA) := by
  refine ⟨list_mappings_all_tenant, ?_, ?_⟩
  · intro tenantA tenantB type_filter store m hne hB hmem
    have := (List.all_eq_true.mp (list_mappings_all_tenant tenantA type_filter store)) m hmem
    exact hne (hB ▸ (eq_of_beq this)).symm
  · intro tenantA ngsi_id store m hfind
    have := List.find?_some hfind
    exact eq_of_beq ((Bool.and_eq_true ..).mp this).1

/-- Witness for C2 at a concrete store where tenants `A` and `B` hold
mappings with the textually identical external id `urn:x:1`. -/
theorem mapping_reads_are_tenant_scoped_witness :
    (⟨"B", "urn:x:1", "AgriParcel", 7, "product.template", .vstr "b", "T"⟩ : EntityMapping) ∉
      get_entity_mappings "A" none
        [⟨"A", "urn:x:1", "AgriParcel", 3, "product.template", .vstr "a", "T"⟩,
         ⟨"B", "urn:x:1", "AgriParcel", 7, "product.template", .vstr "b", "T"⟩] ∧
    (⟨"A", "urn:x:1", "AgriParcel", 3, "product.template", .vstr "a", "T"⟩ :
        EntityMapping).tenant_id = "A" :=
  ⟨mapping_reads_are_tenant_scoped.2.1 "A" "B" none
      [⟨"A", "urn:x:1", "AgriParcel", 3, "product.template", .vstr "a", "T"⟩,
       ⟨"B", "urn:x:1", "AgriParcel", 7, "product.template", .vstr "b", "T"⟩]
      ⟨"B", "urn:x:1", "AgriParcel", 7, "product.template", .vstr "b", "T"⟩
      (by decide) rfl,
   mapping_reads_are_tenant_scoped.2.2 "A" "urn:x:1"
      [⟨"A", "urn:x:1", "AgriParcel", 3, "product.template", .vstr "a", "T"⟩,
       ⟨"B", "urn:x:1", "AgriParcel", 7, "product.template", .vstr "b", "T"⟩]
      ⟨"A", "urn:x:1", "AgriParcel", 3, "product.template", .vstr "a", "T"⟩ rfl⟩

/-- C4: `sync_entity_to_odoo` on an entity whose declared type has no entry
in `NGSI_TO_ODOO_MODEL` raises `Unsupported entity type` and returns the
state untouched: no Odoo call happens and no mapping row is created or
updated. -/
theorem upsert_unsupported_type_short_circuits
    (rejects : RejectOracle) (tenant_id : String) (entity : Entity) (now : String)
    (st : SyncState) (h : ngsiModelFor entity.type = none) :
    sync_entity_to_odoo rejects tenant_id entity now st
      = (.error ("Unsupported entity type: " ++ entity.type), st) := by
  simp [sync_entity_to_odoo, h]

/-- Witness for C4: a `Thermostat` entity (not in the routing table) against
a state that already holds a mapping row; the row set is untouched. -/
theorem upsert_unsupported_type_short_circuits_witness :
    ngsiModelFor "Thermostat" = none ∧
    sync_entity_to_odoo (fun _ _ => false) "t1" ⟨"urn:x:9", "Thermostat", []⟩ "T0"
        { mappings := [⟨"t1", "urn:x:1", "AgriParcel", 3, "product.template", .vstr "a", "T"⟩] }
      = (.error "Unsupported entity type: Thermostat",
         { mappings := [⟨"t1", "urn:x:1", "AgriParcel", 3, "product.template", .vstr "a", "T"⟩] }) :=
  ⟨rfl,
   upsert_unsupported_type_short_circuits (fun _ _ => false) "t1"
     ⟨"urn:x:9", "Thermostat", []⟩ "T0"
     { mappings := [⟨"t1", "urn:x:1", "AgriParcel", 3, "product.template", .vstr "a", "T"⟩] }
     rfl⟩

/-- C7: `provision_tenant` for a tenant whose stored status is already
`active` raises the 409 conflict and returns the tenant table exactly as it
was — no field is modified and no `provisioning` transition happens first. -/
theorem provision_active_tenant_conflicts
    (request : ProvisionRequest) (tenant_id : String) (user : UserInfo)
    (oracle : ProvisionOracle) (now : String) (table : List (String × TenantInfo))
    (info : TenantInfo)
    (h1 : get_tenant_odoo_info tenant_id table = some info)
    (h2 : info.status = some "active") :
    provision_tenant request tenant_id user oracle now table
      = (.error { status_code := 409, detail := "Odoo already provisioned for this tenant" },
         table) := by
  simp [provision_tenant, h1, h2]

/-- Witness for C7: an `active` tenant `t1`; provisioning again yields the
409 and the unchanged table. -/
theorem provision_active_tenant_conflicts_witness :
    get_tenant_odoo_info "t1"
        [("t1", ⟨some "t1", some "nkz_odoo_t1", some "active", true, [], none, none, none⟩)]
      = some ⟨some "t1", some "nkz_odoo_t1", some "active", true, [], none, none, none⟩ ∧
    provision_tenant {} "t1" {} {} "T0"
        [("t1", ⟨some "t1", some "nkz_odoo_t1", some "active", true, [], none, none, none⟩)]
      = (.error { status_code := 409, detail := "Odoo already provisioned for this tenant" },
         [("t1", ⟨some "t1", some "nkz_odoo_t1", some "active", true, [], none, none, none⟩)]) :=
  ⟨rfl,
   provision_active_tenant_conflicts {} "t1" {} {} "T0"
     [("t1", ⟨some "t1", some "nkz_odoo_t1", some "active", true, [], none, none, none⟩)]
     ⟨some "t1", some "nkz_odoo_t1", some "active", true, [], none, none, none⟩ rfl rfl⟩

/-- C10: a tenant with no `odoo_sync_status` row gets a successful
`never_synced` response with no last-sync timestamp from the status route. -/
theorem sync_status_never_synced (tenant_id : String)
    (table : List (String × StoredSyncStatus))
    (h : db_get_sync_status tenant_id table = none) :
    route_get_sync_status tenant_id table
      = .ok { status := "never_synced", lastSync := none } := by
  simp [route_get_sync_status, h]

/-- Witness for C10: the empty status table. -/
theorem sync_status_never_synced_witness :
    route_get_sync_status "t1" []
      = .ok { status := "never_synced", lastSync := none } :=
  sync_status_never_synced "t1" [] rfl

/-- A property key absent from the snapshot yields the supplied default. -/
theorem getPropD_absent (e : Entity) (name : String) (d : Value)
    (h : lookupProp e.props name = none) : getPropD e name d = d := by
  simp [getPropD, h]

/-- A `(value: …)`-wrapped property is unwrapped to its inner value. -/
theorem getPropD_wrapped (e : Entity) (name : String) (fs : List (String × Value))
    (v d : Value) (h : lookupProp e.props name = some (.vdict fs))
    (hv : dictGet fs "value" = some v) : getPropD e name d = v := by
  simp [getPropD, h, hv]

/-- A bare (non-dict, non-`None`) property value is used as-is. -/
theorem getPropD_bare (e : Entity) (name : String) (v d : Value)
    (h : lookupProp e.props name = some v) (hd : ∀ fs, v ≠ .vdict fs)
    (hn : v ≠ .vnone) : getPropD e name d = v := by
  cases v with
  | vnone => exact absurd rfl hn
  | vdict fs => exact absurd rfl (hd fs)
  | vstr s => simp [getPropD, h]
  | vnum n => simp [getPropD, h]
  | vbool b => simp [getPropD, h]

/-- A dict-shaped property with neither a `value` nor an `@value` key falls
through `_get_property_value` and is returned as-is (not defaulted). -/
theorem getPropD_dict_no_keys (e : Entity) (name : String)
    (fs : List (String × Value)) (d : Value)
    (h : lookupProp e.props name = some (.vdict fs))
    (h1 : dictGet fs "value" = none) (h2 : dictGet fs "@value" = none) :
    getPropD e name d = .vdict fs := by
  simp [getPropD, h, h1, h2]

/-- The transform always emits the base pair: `x_ngsi_id` is the external
entity id, and `name` is the name property unwrapped, falling back to the
external id when the unwrapped name is falsy (in particular when absent). -/
theorem transform_emits_base (e : Entity) (model : String)
    (vals : List (String × Value)) (h : transform_to_odoo e model = .ok vals) :
    dictGet vals "x_ngsi_id" = some (.vstr e.id) ∧
    dictGet vals "name" = some (pyOr (getProp e "name") (.vstr e.id)) := by
  unfold transform_to_odoo at h
  split at h
  · exact Except.ok.inj h ▸ ⟨rfl, rfl⟩
  · split at h
    · exact Except.ok.inj h ▸ ⟨rfl, rfl⟩
    · split at h
      · exact Except.ok.inj h ▸ ⟨rfl, rfl⟩
      · split at h
        · exact Except.ok.inj h ▸ ⟨rfl, rfl⟩
        · split at h
          · unfold transform_building at h
            rcases haddr : pyOr (getProp e "address") (.vdict []) with _ | s | n | b | fields <;>
              rw [haddr] at h <;> simp only [Except.map] at h
            all_goals first
              | exact Except.ok.inj h ▸ ⟨rfl, rfl⟩
              | exact Except.noConfusion h
          · exact Except.ok.inj h ▸ ⟨rfl, rfl⟩

/-- Counterexample to C9 as stated: a dict-shaped property carrying neither
a `value` nor an `@value` key does NOT yield the `value absent` default —
`_get_property_value` falls through and returns the dict itself. -/
theorem property_dict_without_value_not_defaulted :
    getPropD ⟨"urn:x:9", "Device", [("name", .vdict [("foo", .vnum 1)])]⟩ "name" .vnone
      = .vdict [("foo", .vnum 1)] ∧
    Value.vdict [("foo", .vnum 1)] ≠ .vnone :=
  ⟨rfl, fun h => Value.noConfusion h⟩

/-- C9 as amended: the transform emits the base `name`/`x_ngsi_id` pair
(display name defaulting to the external id when the name property is
absent); an absent property yields the field's default rather than raising;
a one-level `value` wrapper is unwrapped; a bare value is used as-is; and a
dict-shaped property carrying neither `value` nor `@value` is returned
as-is (like a bare value) rather than defaulted. -/
theorem transform_property_semantics :
    (∀ (e : Entity) (model : String) (vals : List (String × Value)),
        transform_to_odoo e model = .ok vals →
        dictGet vals "x_ngsi_id" = some (.vstr e.id) ∧
        (lookupProp e.props "name" = none → dictGet vals "name" = some (.vstr e.id))) ∧
    (∀ (e : Entity) (name : String), lookupProp e.props name = none →
        ∀ d, getPropD e name d = d) ∧
    (∀ (e : Entity) (name : String) (fs : List (String × Value)) (v d : Value),
        lookupProp e.props name = some (.vdict fs) → dictGet fs "value" = some v →
        getPropD e name d = v) ∧
    (∀ (e : Entity) (name : String) (v d : Value),
        lookupProp e.props name = some v → (∀ fs, v ≠ .vdict fs) → v ≠ .vnone →
        getPropD e name d = v) ∧
    (∀ (e : Entity) (name : String) (fs : List (String × Value)) (d : Value),
        lookupProp e.props name = some (.vdict fs) →
        dictGet fs "value" = none → dictGet fs "@value" = none →
        getPropD e name d = .vdict fs) := by
  refine ⟨?_, fun e n h d => getPropD_absent e n d h,
    fun e n fs v d h hv => getPropD_wrapped e n fs v d h hv,
    fun e n v d h hd hn => getPropD_bare e n v d h hd hn,
    fun e n fs d h h1 h2 => getPropD_dict_no_keys e n fs d h h1 h2⟩
  intro e model vals h
  refine ⟨(transform_emits_base e model vals h).1, fun habs => ?_⟩
  have := (transform_emits_base e model vals h).2
  rw [this, getProp, getPropD_absent e "name" .vnone habs]
  rfl

/-- Witness for (amended) C9: a wrapped `area` property unwraps and a
missing property defaults. -/
theorem transform_property_semantics_witness :
    getPropD ⟨"urn:x:1", "AgriParcel", [("area", .vdict [("value", .vnum 3)])]⟩
        "area" .vnone = .vnum 3 ∧
    getPropD ⟨"urn:x:1", "AgriParcel", [("area", .vdict [("value", .vnum 3)])]⟩
        "cropType" .vnone = .vnone :=
  ⟨transform_property_semantics.2.2.1
      ⟨"urn:x:1", "AgriParcel", [("area", .vdict [("value", .vnum 3)])]⟩
      "area" [("value", .vnum 3)] (.vnum 3) .vnone rfl rfl,
   transform_property_semantics.2.1
      ⟨"urn:x:1", "AgriParcel", [("area", .vdict [("value", .vnum 3)])]⟩
      "cropType" rfl .vnone⟩

/-- C6 (code bug): a provisioning step failure does transition the tenant to
status `error` — it is never left in `provisioning` — but the captured error
message is dropped: the caller puts `"error": str(e)` into the info dict,
yet `save_tenant_odoo_info` never reads that key and the row's `error`
column stays NULL. Evaluated at a concrete failing input (database
duplication raising `boom`). -/
theorem provision_failure_sets_error_status_but_drops_message :
    (provision_tenant {} "t1" {} { duplicate_database := some "boom" } "T0" []).fst
        = .error { status_code := 500, detail := "Failed to provision Odoo: boom" }
    ∧ ((get_tenant_odoo_info "t1"
          (provision_tenant {} "t1" {} { duplicate_database := some "boom" } "T0" []).snd).map
        (fun i => (i.status, i.error)))
        = some (some "error", none) :=
  ⟨rfl, rfl⟩

end NkzOdoo
